import Mathlib

/-!
Verification of the P2P client core of the ankermake-m5-protocol repository.

The development shallowly embeds the Python sources:
  * `src/test_transfer.py`   — `RateLimiter`, `send_file`
  * `src/web/service/pppp.py` — `PPPPService` (cleanup, retry backoff, worker loop)
  * `src/web/service/video.py` — `VideoQueue` (`_handler`, `set_video_enabled`)
  * `src/web/service/filetransfer.py` — `FileTransferService.send_file`

Machine floats in the source only ever hold exact small values here (second
boundaries, byte counts), so time values are embedded as rationals and byte
counts as naturals.  I/O side effects (sockets, sleeps, logging) are erased;
the outcome of each fallible external call is an explicit input, so that the
control flow of the Python code is kept exactly.
-/

/-! ### File transfer frames (`send_file` in src/test_transfer.py)

`send_file` emits, on the bulk channel: one BEGIN frame whose payload is the
serialised `FileUploadInfo` (an opaque byte blob, modelled as an arbitrary
byte list) followed by one zero byte, then DATA frames of `blocksize` bytes
stepping through `data` (`for pos in range(0, len(data), blocksize)` with
payload `data[pos:pos + blocksize]`), then one empty END frame.  The XZYH
`P2P_SEND_FILE` command sent beforehand is not a bulk frame and is not part
of this list. -/

/-- `blocksize = 1024 * 32` — 32 KiB chunks (src/test_transfer.py line 66). -/
def blocksize : Nat := 1024 * 32

/-- The three bulk frame types of `libflagship.pppp.FileTransfer`. -/
inductive FrameType where
  | BEGIN
  | DATA
  | END
deriving DecidableEq, Repr

/-- One bulk frame emitted by `api.aabb_request(payload, frametype, pos)`. -/
structure BulkFrame where
  ftype : FrameType
  payload : List Nat
  pos : Nat
deriving DecidableEq, Repr

/-- The DATA frames of the chunk loop in `send_file` (lines 71–86): the loop
`for pos in range(0, len(data), blocksize)` sends `data[pos:pos+blocksize]`
at offset `pos`; modelled by peeling `blocksize` bytes at a time. -/
def dataFrames (bs : List Nat) (pos : Nat) : List BulkFrame :=
  if h : bs = [] then []
  else
    ⟨FrameType.DATA, bs.take blocksize, pos⟩ ::
      dataFrames (bs.drop blocksize) (pos + blocksize)
termination_by bs.length
decreasing_by
  have hpos : 0 < bs.length := List.length_pos.mpr h
  simp only [List.length_drop, blocksize]
  omega

/-- The full bulk frame sequence of `send_file` (src/test_transfer.py lines
58–90): BEGIN with payload `bytes(fui) + b"\x00"`, the DATA chunk loop, then
an empty END frame. -/
def send_file (fui : List Nat) (data : List Nat) : List BulkFrame :=
  ⟨FrameType.BEGIN, fui ++ [0], 0⟩ ::
    (dataFrames data 0 ++ [⟨FrameType.END, [], 0⟩])

theorem blocksize_pos : 0 < blocksize := by decide

theorem ceil_div_step (n : Nat) (hn : 0 < n) :
    (n + blocksize - 1) / blocksize = ((n - blocksize) + blocksize - 1) / blocksize + 1 := by
  have hb : 0 < blocksize := blocksize_pos
  by_cases hle : n ≤ blocksize
  · have h1 : n - blocksize = 0 := by omega
    rw [h1]
    have h2 : (0 + blocksize - 1) / blocksize = 0 :=
      Nat.div_eq_of_lt (by omega)
    rw [h2]
    apply Nat.div_eq_of_lt_le
    · omega
    · omega
  · have h3 : n + blocksize - 1 = ((n - blocksize) + blocksize - 1) + blocksize := by omega
    rw [h3, Nat.add_div_right _ hb]

theorem dataFrames_eq (bs : List Nat) (p : Nat) :
    dataFrames bs p = (List.range ((bs.length + blocksize - 1) / blocksize)).map
      (fun i => ⟨FrameType.DATA, (bs.drop (blocksize * i)).take blocksize,
                 p + blocksize * i⟩) := by
  induction bs, p using dataFrames.induct with
  | case1 p =>
    rw [dataFrames]
    simp [blocksize]
  | case2 bs p h ih =>
    rw [dataFrames, dif_neg h]
    have hn : 0 < bs.length := List.length_pos.mpr h
    rw [ceil_div_step bs.length hn]
    rw [List.range_succ_eq_map, List.map_cons, List.map_map]
    have hlen : (bs.drop blocksize).length = bs.length - blocksize := by
      simp [List.length_drop]
    rw [ih, hlen]
    congr 1
    apply List.map_congr_left
    intro i _
    simp only [Function.comp_apply]
    congr 1
    · rw [List.drop_drop]
      congr 1
      rw [Nat.mul_succ]
      ring
    · rw [Nat.mul_succ]
      ring

theorem dataFrames_sum (bs : List Nat) (p : Nat) :
    ((dataFrames bs p).map (fun fr => fr.payload.length)).sum = bs.length := by
  induction bs, p using dataFrames.induct with
  | case1 p =>
    rw [dataFrames]
    simp
  | case2 bs p h ih =>
    rw [dataFrames, dif_neg h]
    simp only [List.map_cons, List.sum_cons, ih]
    simp only [List.length_take, List.length_drop]
    omega

theorem dataFrames_all_data (bs : List Nat) (p : Nat) :
    ∀ fr ∈ dataFrames bs p, fr.ftype = FrameType.DATA := by
  induction bs, p using dataFrames.induct with
  | case1 p =>
    rw [dataFrames]
    simp
  | case2 bs p h ih =>
    rw [dataFrames, dif_neg h]
    intro fr hfr
    rcases List.mem_cons.mp hfr with h1 | h1
    · rw [h1]
    · exact ih fr h1

/-- C1: `send_file` emits exactly one BEGIN bulk frame with payload
`serialize(fui) ++ [0]`, then exactly `⌈N / 32768⌉` DATA frames whose
payloads are the consecutive 32 KiB slices of the data (so their sizes sum
to `N`) at byte offsets `0, 32768, 65536, …`, then exactly one END frame
with empty payload, in that order. -/
theorem send_file_spec (fui data : List Nat) :
    send_file fui data =
      ⟨FrameType.BEGIN, fui ++ [0], 0⟩ ::
        (((List.range ((data.length + blocksize - 1) / blocksize)).map
          (fun i => ⟨FrameType.DATA, (data.drop (blocksize * i)).take blocksize,
                     blocksize * i⟩))
        ++ [⟨FrameType.END, [], 0⟩])
    ∧ ((dataFrames data 0).map (fun fr => fr.payload.length)).sum = data.length
    ∧ (send_file fui data).countP (fun fr => fr.ftype == FrameType.DATA)
        = (data.length + blocksize - 1) / blocksize
    ∧ (send_file fui data).countP (fun fr => fr.ftype == FrameType.BEGIN) = 1
    ∧ (send_file fui data).countP (fun fr => fr.ftype == FrameType.END) = 1 := by
  have hall := dataFrames_all_data data 0
  have hcnt : ∀ t : FrameType,
      (dataFrames data 0).countP (fun fr => fr.ftype == t)
        = if t = FrameType.DATA then (dataFrames data 0).length else 0 := by
    intro t
    by_cases ht : t = FrameType.DATA
    · subst ht
      simp only [if_pos rfl]
      apply List.countP_eq_length.mpr
      intro fr hfr
      simp [hall fr hfr]
    · rw [if_neg ht]
      apply List.countP_eq_zero.mpr
      intro fr hfr
      simp only [beq_iff_eq]
      rw [hall fr hfr]
      exact fun hc => ht hc.symm
  have hlen : (dataFrames data 0).length = (data.length + blocksize - 1) / blocksize := by
    rw [dataFrames_eq]
    simp
  refine ⟨?_, dataFrames_sum data 0, ?_, ?_, ?_⟩
  · unfold send_file
    rw [dataFrames_eq]
    simp
  · unfold send_file
    simp only [List.countP_cons, List.countP_append, hcnt, hlen]
    simp
  · unfold send_file
    simp only [List.countP_cons, List.countP_append, hcnt]
    simp
  · unfold send_file
    simp only [List.countP_cons, List.countP_append, hcnt]
    simp

/-! ### Rate limiter (`RateLimiter` in src/test_transfer.py lines 15–36)

Wall-clock time is embedded as a rational number; the sleep performed by
`time.sleep(sleep_time)` is returned explicitly, and the `time.time()` read
after the sleep is idealised as `now + sleep_time` (the wake-up instant).
Byte counts are naturals: for a natural `rate_mbps`, the Python float
`rate_mbps * 1024 * 1024 / 8` is the exact natural `rate_mbps * 131072`, so
natural division loses nothing. -/

/-- State of `RateLimiter`: `rate_bytes` from `__init__`
(`rate_mbps * 1024 * 1024 / 8`), `last_check`, `bytes_sent`. -/
structure RateLimiter where
  rate_bytes : Nat
  last_check : ℚ
  bytes_sent : Nat
deriving DecidableEq, Repr

/-- `RateLimiter.__init__(rate_mbps)` at wall-clock time `now`. -/
def RateLimiter.init (rate_mbps : Nat) (now : ℚ) : RateLimiter :=
  ⟨rate_mbps * 1024 * 1024 / 8, now, 0⟩

/-- `RateLimiter.wait(chunk_size)` called at wall-clock time `now`.
Returns the new state and the duration slept (0 when no sleep happened).
Mirrors lines 21–36: roll the window if `time_passed >= 1.0`; else if
`bytes_sent + chunk_size > rate_bytes` sleep `1.0 - time_passed` and reset;
finally charge `bytes_sent += chunk_size`. -/
def RateLimiter.wait (rl : RateLimiter) (now : ℚ) (chunk_size : Nat) :
    RateLimiter × ℚ :=
  let time_passed := now - rl.last_check
  if 1 ≤ time_passed then
    (⟨rl.rate_bytes, now, chunk_size⟩, 0)
  else if rl.rate_bytes < rl.bytes_sent + chunk_size then
    (⟨rl.rate_bytes, now + (1 - time_passed), chunk_size⟩, 1 - time_passed)
  else
    (⟨rl.rate_bytes, rl.last_check, rl.bytes_sent + chunk_size⟩, 0)

/-- The per-window byte budget the claim asserts: `rate_mbps × 10⁶ / 8`.
This follows the claim's words; the code's `RateLimiter.init` computes
`rate_mbps * 1024 * 1024 / 8` instead, and the two differ. -/
def claimedBudget (rate_mbps : Nat) : Nat := rate_mbps * 1000000 / 8

/-- C2 counterexample: with `rate_mbps = 1` the code's window budget
`rate_bytes` is `131072 = 1024²/8`, not `125000 = 10⁶/8`; and with
122880 bytes already charged in the current window, a 4096-byte chunk —
which pushes past the claimed `10⁶/8` budget — is charged with no sleep. -/
theorem rate_budget_counterexample :
    (RateLimiter.init 1 0).rate_bytes ≠ claimedBudget 1
    ∧ (RateLimiter.wait ⟨131072, 0, 122880⟩ 0 4096).2 = 0
    ∧ (RateLimiter.wait ⟨131072, 0, 122880⟩ 0 4096).1.bytes_sent = 126976
    ∧ claimedBudget 1 < 126976 := by
  refine ⟨by decide, ?_, ?_, by decide⟩
  · norm_num [RateLimiter.wait]
  · norm_num [RateLimiter.wait]

theorem wait_bytes (rl : RateLimiter) (now : ℚ) (n : Nat) :
    (rl.wait now n).1.bytes_sent = n
    ∨ (rl.wait now n).1.bytes_sent = rl.bytes_sent + n := by
  by_cases h1 : (1 : ℚ) ≤ now - rl.last_check
  · exact Or.inl (by simp [RateLimiter.wait, if_pos h1])
  · by_cases h2 : rl.rate_bytes < rl.bytes_sent + n
    · exact Or.inl (by simp [RateLimiter.wait, if_neg h1, if_pos h2])
    · exact Or.inr (by simp [RateLimiter.wait, if_neg h1, if_neg h2])

theorem wait_sleep_iff (rl : RateLimiter) (now : ℚ) (n : Nat) :
    ((rl.wait now n).2 ≠ 0) ↔
      (now - rl.last_check < 1 ∧ rl.rate_bytes < rl.bytes_sent + n) := by
  by_cases h1 : (1 : ℚ) ≤ now - rl.last_check
  · simp [RateLimiter.wait, if_pos h1, not_lt.mpr h1]
  · have h1' : now - rl.last_check < 1 := not_le.mp h1
    by_cases h2 : rl.rate_bytes < rl.bytes_sent + n
    · have h3 : (0 : ℚ) < 1 - (now - rl.last_check) := by linarith
      simp [RateLimiter.wait, if_neg h1, if_pos h2, h1', h2, ne_of_gt h3]
    · simp [RateLimiter.wait, if_neg h1, if_neg h2, h2]

theorem wait_sleep_amount (rl : RateLimiter) (now : ℚ) (n : Nat) :
    (rl.wait now n).2 = 0 ∨ (rl.wait now n).2 = 1 - (now - rl.last_check) := by
  by_cases h1 : (1 : ℚ) ≤ now - rl.last_check
  · exact Or.inl (by simp [RateLimiter.wait, if_pos h1])
  · by_cases h2 : rl.rate_bytes < rl.bytes_sent + n
    · exact Or.inr (by simp [RateLimiter.wait, if_neg h1, if_pos h2])
    · exact Or.inl (by simp [RateLimiter.wait, if_neg h1, if_neg h2])

theorem wait_bound (rl : RateLimiter) (now : ℚ) (n C : Nat) (hC : n ≤ C) :
    (rl.wait now n).1.bytes_sent ≤ rl.rate_bytes + C := by
  by_cases h1 : (1 : ℚ) ≤ now - rl.last_check
  · have hb : (rl.wait now n).1.bytes_sent = n := by
      simp [RateLimiter.wait, if_pos h1]
    omega
  · by_cases h2 : rl.rate_bytes < rl.bytes_sent + n
    · have hb : (rl.wait now n).1.bytes_sent = n := by
        simp [RateLimiter.wait, if_neg h1, if_pos h2]
      omega
    · have hb : (rl.wait now n).1.bytes_sent = rl.bytes_sent + n := by
        simp [RateLimiter.wait, if_neg h1, if_neg h2]
      omega

/-- C2 (amended): the per-window budget is `rate_mbps × 1024² / 8 =
rate_mbps × 131072` bytes; `wait` sleeps (until the end of the current
1-second window, i.e. for `1 - time_passed`) exactly when less than one
second has passed and the bytes already charged plus the chunk would
exceed that budget; consequently the bytes charged in a window never
exceed the budget by more than one chunk (`C` bounds the chunk sizes). -/
theorem rate_limiter_amended (R : Nat) (t : ℚ) (rl : RateLimiter) (now : ℚ)
    (n C : Nat) (hC : n ≤ C) :
    (RateLimiter.init R t).rate_bytes = R * 131072
    ∧ (((rl.wait now n).2 ≠ 0) ↔
        (now - rl.last_check < 1 ∧ rl.rate_bytes < rl.bytes_sent + n))
    ∧ ((rl.wait now n).2 ≠ 0 → (rl.wait now n).2 = 1 - (now - rl.last_check))
    ∧ (rl.wait now n).1.bytes_sent ≤ rl.rate_bytes + C := by
  refine ⟨?_, wait_sleep_iff rl now n, ?_, wait_bound rl now n C hC⟩
  · show R * 1024 * 1024 / 8 = R * 131072
    omega
  · intro hne
    exact (wait_sleep_amount rl now n).resolve_left hne

/-- Witness for `rate_limiter_amended` at `R = 1`, a fresh limiter and a
4096-byte chunk. -/
theorem rate_limiter_amended_witness :
    (RateLimiter.init 1 0).rate_bytes = 1 * 131072
    ∧ (RateLimiter.wait ⟨131072, 0, 0⟩ 0 4096).1.bytes_sent ≤ 131072 + 4096 :=
  ⟨(rate_limiter_amended 1 0 ⟨131072, 0, 0⟩ 0 4096 4096 (le_refl 4096)).1,
   (rate_limiter_amended 1 0 ⟨131072, 0, 0⟩ 0 4096 4096 (le_refl 4096)).2.2.2⟩

/-- C9 counterexample: when no time has passed since the window start
(`time_passed = 0`) and the budget is already exhausted, the sleep lasts
exactly one second — not strictly less than one second. -/
theorem wait_sleep_counterexample :
    ¬ ((RateLimiter.wait ⟨131072, 0, 131072⟩ 0 1).2 < 1) := by
  norm_num [RateLimiter.wait]

/-- C9 (amended): each `wait` call performs at most one sleep (the function
returns a single sleep duration); under monotone time that sleep lasts at
most one second, and strictly less than one second whenever strictly
positive time has elapsed since the window start; the chunk is always
charged: the resulting `bytes_sent` is either `chunk` (window rolled or
slept) or the previous `bytes_sent + chunk`.  Totality of the definition
reflects that the straight-line Python body always returns. -/
theorem wait_single_sleep (rl : RateLimiter) (now : ℚ) (n : Nat)
    (h : rl.last_check ≤ now) :
    (rl.wait now n).2 ≤ 1
    ∧ (rl.last_check < now → (rl.wait now n).2 < 1)
    ∧ ((rl.wait now n).1.bytes_sent = n
        ∨ (rl.wait now n).1.bytes_sent = rl.bytes_sent + n) := by
  refine ⟨?_, ?_, wait_bytes rl now n⟩
  · rcases wait_sleep_amount rl now n with hs | hs
    · rw [hs]
      norm_num
    · rw [hs]
      linarith
  · intro hlt
    rcases wait_sleep_amount rl now n with hs | hs
    · rw [hs]
      norm_num
    · rw [hs]
      have hpos : (0 : ℚ) < now - rl.last_check := by linarith
      linarith

/-- Witness for `wait_single_sleep`: a call half a second into the window,
over budget, sleeps at most one second (strictly less) and charges the
chunk. -/
theorem wait_single_sleep_witness :
    (RateLimiter.wait ⟨131072, 0, 131072⟩ (1/2) 1).2 ≤ 1
    ∧ ((0 : ℚ) < 1/2 → (RateLimiter.wait ⟨131072, 0, 131072⟩ (1/2) 1).2 < 1) :=
  ⟨(wait_single_sleep ⟨131072, 0, 131072⟩ (1/2) 1 (by norm_num)).1,
   fun _ => (wait_single_sleep ⟨131072, 0, 131072⟩ (1/2) 1 (by norm_num)).2.1
     (by norm_num)⟩

/-! ### Retry backoff (`PPPPService.get_retry_interval`,
`reset_retry_count` in src/web/service/pppp.py lines 173–191)

`get_retry_interval` first resets the retry counter when more than
`MAX_RETRY_INTERVAL` seconds have passed since the last connection attempt,
then resets it again when it has reached `MAX_RETRY_COUNT`, and returns
`min(INITIAL_RETRY_DELAY * 2 ** retry_count, MAX_RETRY_INTERVAL)`.  The
function mutates `self.retry_count`; it is embedded as returning the new
counter value together with the interval. -/

def MAX_RETRY_INTERVAL : Nat := 30
def MAX_RETRY_COUNT : Nat := 5
def INITIAL_RETRY_DELAY : Nat := 2

def get_retry_interval (retry_count : Nat) (last_connection_attempt now : ℚ) :
    Nat × Nat :=
  let rc1 := if (MAX_RETRY_INTERVAL : ℚ) < now - last_connection_attempt
             then 0 else retry_count
  let rc2 := if MAX_RETRY_COUNT ≤ rc1 then 0 else rc1
  (rc2, min (INITIAL_RETRY_DELAY * 2 ^ rc2) MAX_RETRY_INTERVAL)

/-- The retry counter before the `n`-th consecutive failed attempt when no
idle gap occurs (modelled with all attempts at the same instant, so the
idleness reset in `get_retry_interval` never fires).  Each failing
`worker_start` consults `get_retry_interval` (which stores the possibly
reset counter back into `self.retry_count`) and then increments the
counter (src/web/service/pppp.py line 244). -/
def rcAfter : Nat → Nat
  | 0 => 0
  | n + 1 => (get_retry_interval (rcAfter n) 0 0).1 + 1

/-- The delay computed before the `n`-th consecutive failed attempt
(0-indexed), no success and no idle gap in between. -/
def nthRetryDelay (n : Nat) : Nat := (get_retry_interval (rcAfter n) 0 0).2

/-- `reset_retry_count` (src/web/service/pppp.py lines 186–191), on the
retry-relevant fields. -/
structure RetryState where
  retry_count : Nat
  last_successful_connection : ℚ
  heartbeat_fail_count : Nat
deriving DecidableEq, Repr

def reset_retry_count (now : ℚ) (st : RetryState) : RetryState :=
  ⟨0, now, 0⟩

theorem gri_fst_zero (rc : Nat) :
    (get_retry_interval rc 0 0).1 = if MAX_RETRY_COUNT ≤ rc then 0 else rc := by
  unfold get_retry_interval
  norm_num [MAX_RETRY_INTERVAL]

theorem effRc (n : Nat) : (get_retry_interval (rcAfter n) 0 0).1 = n % 5 := by
  induction n with
  | zero =>
    rw [gri_fst_zero]
    decide
  | succ n ih =>
    have h1 : rcAfter (n + 1) = n % 5 + 1 := by
      show (get_retry_interval (rcAfter n) 0 0).1 + 1 = n % 5 + 1
      rw [ih]
    rw [gri_fst_zero, h1]
    unfold MAX_RETRY_COUNT
    split
    · omega
    · omega

theorem gri_snd (rc : Nat) :
    (get_retry_interval rc 0 0).2
      = min (INITIAL_RETRY_DELAY * 2 ^ ((get_retry_interval rc 0 0).1))
          MAX_RETRY_INTERVAL := by
  rfl

/-- C3 counterexample: under six consecutive failures with no success and
no idle gap, the sixth computed delay (index 5) is 2 seconds, not the 30
seconds the claimed sequence `2, 4, 8, 16, 30, 30, …` demands: the code
also resets the retry counter once it reaches `MAX_RETRY_COUNT = 5`,
without any successful `worker_start` and without idleness. -/
theorem retry_backoff_counterexample :
    nthRetryDelay 5 = 2 ∧ ¬ nthRetryDelay 5 = 30 := by
  have h5 : rcAfter 5 = 5 := by
    show (get_retry_interval (rcAfter 4) 0 0).1 + 1 = 5
    rw [effRc 4]
  have : nthRetryDelay 5 = 2 := by
    unfold nthRetryDelay
    rw [h5, gri_snd, gri_fst_zero]
    decide
  exact ⟨this, by omega⟩

/-- C3 (amended): the consecutive-failure delays are periodic with period
`MAX_RETRY_COUNT = 5`: `2, 4, 8, 16, 30, 2, 4, 8, 16, 30, …`, i.e. the
`n`-th delay is `min(2 · 2^(n mod 5), 30)`, because the counter is also
reset whenever it reaches `MAX_RETRY_COUNT`.  In addition the counter is
reset when more than `MAX_RETRY_INTERVAL = 30` s have passed since the
last connection attempt, and `reset_retry_count` (called after a
successful `worker_start`) sets it to 0; when neither reset condition
holds the counter is left unchanged. -/
theorem retry_backoff_amended :
    (∀ n : Nat, nthRetryDelay n
        = min (INITIAL_RETRY_DELAY * 2 ^ (n % MAX_RETRY_COUNT)) MAX_RETRY_INTERVAL)
    ∧ (∀ rc : Nat, ∀ last now : ℚ, (MAX_RETRY_INTERVAL : ℚ) < now - last →
        (get_retry_interval rc last now).1 = 0)
    ∧ (∀ rc : Nat, ∀ last now : ℚ, now - last ≤ (MAX_RETRY_INTERVAL : ℚ) →
        MAX_RETRY_COUNT ≤ rc → (get_retry_interval rc last now).1 = 0)
    ∧ (∀ rc : Nat, ∀ last now : ℚ, now - last ≤ (MAX_RETRY_INTERVAL : ℚ) →
        rc < MAX_RETRY_COUNT → (get_retry_interval rc last now).1 = rc)
    ∧ (∀ st : RetryState, ∀ now : ℚ, (reset_retry_count now st).retry_count = 0) := by
  refine ⟨?_, ?_, ?_, ?_, fun st now => rfl⟩
  · intro n
    unfold nthRetryDelay
    rw [gri_snd, effRc]
    rfl
  · intro rc last now hidle
    unfold get_retry_interval
    rw [if_pos hidle]
    rfl
  · intro rc last now hidle hcap
    simp only [get_retry_interval]
    rw [if_neg (not_lt.mpr hidle), if_pos hcap]
  · intro rc last now hidle hcap
    simp only [get_retry_interval]
    rw [if_neg (not_lt.mpr hidle), if_neg (not_le.mpr hcap)]

/-- Witness for `retry_backoff_amended`: the sixth delay follows the
periodic formula, idleness of 31 s resets the counter, a counter of 7
is reset at the cap, and a counter of 3 is kept. -/
theorem retry_backoff_amended_witness :
    nthRetryDelay 5
      = min (INITIAL_RETRY_DELAY * 2 ^ (5 % MAX_RETRY_COUNT)) MAX_RETRY_INTERVAL
    ∧ (get_retry_interval 3 0 31).1 = 0
    ∧ (get_retry_interval 7 0 0).1 = 0
    ∧ (get_retry_interval 3 0 0).1 = 3 :=
  ⟨retry_backoff_amended.1 5,
   retry_backoff_amended.2.1 3 0 31 (by norm_num [MAX_RETRY_INTERVAL]),
   retry_backoff_amended.2.2.1 7 0 0 (by norm_num [MAX_RETRY_INTERVAL])
     (by norm_num [MAX_RETRY_COUNT]),
   retry_backoff_amended.2.2.2.1 3 0 0 (by norm_num [MAX_RETRY_INTERVAL])
     (by norm_num [MAX_RETRY_COUNT])⟩

/-! ### PPPP service state, cleanup and worker loop
(src/web/service/pppp.py)

The session object (`self._api`) is embedded as `Option Bool`, carrying its
`stopped` flag; handlers are `(id, raises?)` pairs (the second component
records whether the Python callable raises when invoked); the packet dumper
is an `Option Unit`.  Fields used only for logging are omitted.

`cleanup_connection` (lines 65–171) wraps its whole body in `try/except`:
every exception is caught (nothing ever propagates — the function is total
here), and each individual risky step (sending `PktClose`, stopping the API
thread, closing channels and socket, closing the dumper) is additionally
wrapped in its own `try/except`.  An individually-wrapped step that fails
does not change the visible post-state; the two ways the *outer* handler
can be reached are an unguarded statement raising (modelled by
`CleanupFaults.outer`, e.g. `self._api.stopped.is_set()` on line 88).  In
both the normal path (lines 123–145) and the outer `except` path (lines
148–171) the handlers are cleared, the dumper dropped, `_api` set to
`None`, heartbeat state reset and `last_cleanup_time` recorded; only the
`dumper.close()` call is skipped on the `except` path (the dumper is
dropped unclosed there).  The returned Bool records whether the dumper was
closed. -/

structure CleanupFaults where
  outer : Bool
  dumperClose : Bool
deriving DecidableEq, Repr

structure PPPPServiceState where
  api : Option Bool
  handlers : List (Nat × Bool)
  dumper : Option Unit
  last_heartbeat : ℚ
  heartbeat_fail_count : Nat
  restart_pending : Bool
  stopping : Bool
  last_cleanup_time : ℚ
deriving DecidableEq, Repr

/-- `PPPPService.cleanup_connection` at wall-clock time `now` with fault
injection `f`; returns the new state and whether the dumper was closed.
With `self._api` absent (`None`) the guard on line 67 makes the whole body
a no-op. -/
def cleanup_connection (f : CleanupFaults) (now : ℚ) (st : PPPPServiceState) :
    PPPPServiceState × Bool :=
  match st.api with
  | none => (st, false)
  | some _ =>
    if f.outer then
      ({ st with handlers := [], dumper := none, api := none,
                 last_heartbeat := 0, heartbeat_fail_count := 0,
                 last_cleanup_time := now }, false)
    else
      ({ st with handlers := [], dumper := none, api := none,
                 last_heartbeat := 0, heartbeat_fail_count := 0,
                 last_cleanup_time := now },
       st.dumper.isSome && !f.dumperClose)

/-- C4 counterexample: starting with no session (`_api = None`) but a
non-empty handler list, `cleanup_connection` is a complete no-op — the
handler list is not emptied, contradicting the claim for the
"session absent" starting states it quantifies over. -/
theorem cleanup_counterexample :
    (cleanup_connection ⟨false, false⟩ 0
        ⟨none, [(7, false)], none, 0, 0, false, false, 0⟩).1.handlers
      = [(7, false)]
    ∧ [(7, false)] ≠ ([] : List (Nat × Bool)) := by
  exact ⟨rfl, by decide⟩

/-- C4 (amended): when a session is present at entry, after
`cleanup_connection` the session reference is `None`, the handler list is
empty, the dumper is dropped (and was closed whenever no unguarded error
pre-empted the close and the close itself did not fail), heartbeat state
is reset and the cleanup time recorded, for every fault injection — no
exception propagates (the function is total); and calling it a second
time, with any faults and time, leaves the state unchanged.  When no
session is present the call is a no-op. -/
theorem cleanup_connection_amended (f : CleanupFaults) (now : ℚ)
    (st : PPPPServiceState) (h : st.api.isSome = true) :
    (cleanup_connection f now st).1.api = none
    ∧ (cleanup_connection f now st).1.handlers = []
    ∧ (cleanup_connection f now st).1.dumper = none
    ∧ (cleanup_connection f now st).1.last_heartbeat = 0
    ∧ (cleanup_connection f now st).1.heartbeat_fail_count = 0
    ∧ (cleanup_connection f now st).1.last_cleanup_time = now
    ∧ (f.outer = false →
        (cleanup_connection f now st).2 = (st.dumper.isSome && !f.dumperClose))
    ∧ (∀ f' : CleanupFaults, ∀ now' : ℚ,
        cleanup_connection f' now' (cleanup_connection f now st).1
          = ((cleanup_connection f now st).1, false)) := by
  rcases hapi : st.api with _ | stopped
  · rw [hapi] at h
    exact absurd h (by simp)
  · cases hf : f.outer
    · simp [cleanup_connection, hapi, hf]
    · simp [cleanup_connection, hapi, hf]

/-- Witness for `cleanup_connection_amended`: a state with a live session,
one handler and a dumper, cleaned with no faults. -/
theorem cleanup_connection_amended_witness :
    (cleanup_connection ⟨false, false⟩ 3
        ⟨some false, [(1, false)], some (), 9, 2, false, false, 0⟩).1.handlers = []
    ∧ (cleanup_connection ⟨false, false⟩ 3
        ⟨some false, [(1, false)], some (), 9, 2, false, false, 0⟩).1.api = none :=
  ⟨(cleanup_connection_amended ⟨false, false⟩ 3
      ⟨some false, [(1, false)], some (), 9, 2, false, false, 0⟩ rfl).2.1,
   (cleanup_connection_amended ⟨false, false⟩ 3
      ⟨some false, [(1, false)], some (), 9, 2, false, false, 0⟩ rfl).1⟩

/-! ### Worker loop (`PPPPService.worker_run`, src/web/service/pppp.py
lines 324–391)

Each external effect's outcome is an explicit input: `RunEnv.hb` is the
outcome of `send_heartbeat` (`ok` resets the failure counter; `fail`
increments it — an exception inside `api_command` or a plain failure;
`failSilent` is the early `return False` on lines 210–214 taken without
incrementing); `RunEnv.recv` is the outcome of the guarded

    msg = self._api.recv(...); process; deliver to handlers

block: a `TimeoutError` (caught by the inner `except` and ignored), no
packet (`msg` falsy), a packet with its channel attribute, a
`ConnectionResetError`, or any other exception.  A handler is a pair
`(id, raises?)`; the loop `for handler in self.handlers[:]` wraps each
call in its own `try/except`, so a raising handler is recorded as invoked
and the loop continues.  `worker_run` returns the new state, whether it
returned normally or raised `ServiceRestartSignal` (the only exception it
can raise — everything else is caught), and the list of handler
invocations `(handler id, channel, packet)` performed. -/

inductive HbOutcome where
  | ok
  | fail
  | failSilent
deriving DecidableEq, Repr

inductive RecvOutcome where
  | timeout
  | noPacket
  | packet (chan : Option Nat) (pkt : Nat)
  | connReset
  | otherError
deriving DecidableEq, Repr

inductive RunResult where
  | ret
  | restartSignal
deriving DecidableEq, Repr

structure RunEnv where
  now : ℚ
  hb : HbOutcome
  recv : RecvOutcome
  faults : CleanupFaults
deriving DecidableEq, Repr

def HEARTBEAT_INTERVAL : Nat := 15
def HEARTBEAT_FAIL_THRESHOLD : Nat := 3
def RECONNECT_DELAY : ℚ := 5

/-- One guarded handler call: `try: handler((chan, msg)) except Exception:
log` — the call happens whether or not the handler raises. -/
def callHandler (h : Nat × Bool) (chan : Option Nat) (pkt : Nat) :
    Except Unit Unit :=
  if h.2 then Except.error () else Except.ok ()

/-- The delivery loop over `self.handlers[:]`: every handler is invoked,
in list order, with the same `(chan, msg)` pair; a raising handler does
not stop the loop. -/
def handlerLoop (hs : List (Nat × Bool)) (chan : Option Nat) (pkt : Nat) :
    List (Nat × Option Nat × Nat) :=
  match hs with
  | [] => []
  | h :: rest =>
    match callHandler h chan pkt with
    | Except.ok _ => (h.1, chan, pkt) :: handlerLoop rest chan pkt
    | Except.error _ => (h.1, chan, pkt) :: handlerLoop rest chan pkt

/-- Lines 389–391: raise `ServiceRestartSignal` (consuming
`restart_pending`) only when a restart is pending and we are not
stopping. -/
def finalCheck (st : PPPPServiceState) (inv : List (Nat × Option Nat × Nat)) :
    PPPPServiceState × RunResult × List (Nat × Option Nat × Nat) :=
  if st.restart_pending && !st.stopping then
    ({ st with restart_pending := false }, RunResult.restartSignal, inv)
  else
    (st, RunResult.ret, inv)

/-- Lines 351–359: heartbeat due when `now - _last_heartbeat ≥
HEARTBEAT_INTERVAL`; on a failed send with the failure count at the
threshold, cleanup and return with a pending restart; otherwise record the
heartbeat time and continue (`Sum.inl` = fall through to the recv block,
`Sum.inr` = early return). -/
def hbPhase (env : RunEnv) (st : PPPPServiceState) :
    PPPPServiceState ⊕ (PPPPServiceState × RunResult × List (Nat × Option Nat × Nat)) :=
  if (HEARTBEAT_INTERVAL : ℚ) ≤ env.now - st.last_heartbeat then
    match env.hb with
    | HbOutcome.ok =>
        Sum.inl { st with heartbeat_fail_count := 0, last_heartbeat := env.now }
    | HbOutcome.fail =>
        let st1 : PPPPServiceState :=
          { st with heartbeat_fail_count := st.heartbeat_fail_count + 1 }
        if HEARTBEAT_FAIL_THRESHOLD ≤ st1.heartbeat_fail_count then
          Sum.inr ({ (cleanup_connection env.faults env.now st1).1 with
                     restart_pending := true }, RunResult.ret, [])
        else
          Sum.inl { st1 with last_heartbeat := env.now }
    | HbOutcome.failSilent =>
        if HEARTBEAT_FAIL_THRESHOLD ≤ st.heartbeat_fail_count then
          Sum.inr ({ (cleanup_connection env.faults env.now st).1 with
                     restart_pending := true }, RunResult.ret, [])
        else
          Sum.inl { st with last_heartbeat := env.now }
  else Sum.inl st

/-- Lines 361–386: the recv block with its nested `try/except`s, then the
final restart check. -/
def recvPhase (env : RunEnv) (st : PPPPServiceState) :
    PPPPServiceState × RunResult × List (Nat × Option Nat × Nat) :=
  match env.recv with
  | RecvOutcome.timeout => finalCheck st []
  | RecvOutcome.noPacket => finalCheck st []
  | RecvOutcome.packet chan pkt => finalCheck st (handlerLoop st.handlers chan pkt)
  | RecvOutcome.connReset =>
      ({ (cleanup_connection env.faults env.now st).1 with
         restart_pending := true }, RunResult.ret, [])
  | RecvOutcome.otherError =>
      let st1 : PPPPServiceState :=
        { st with heartbeat_fail_count := st.heartbeat_fail_count + 1 }
      if HEARTBEAT_FAIL_THRESHOLD ≤ st1.heartbeat_fail_count then
        ({ (cleanup_connection env.faults env.now st1).1 with
           restart_pending := true }, RunResult.ret, [])
      else
        finalCheck st1 []

/-- `PPPPService.worker_run` (lines 324–391). -/
def worker_run (env : RunEnv) (st : PPPPServiceState) :
    PPPPServiceState × RunResult × List (Nat × Option Nat × Nat) :=
  if st.stopping then (st, RunResult.ret, [])
  else
    match st.api with
    | none =>
      if env.now - st.last_cleanup_time < RECONNECT_DELAY then
        (st, RunResult.ret, [])
      else
        ({ st with restart_pending := true }, RunResult.ret, [])
    | some stopped =>
      if stopped then
        ({ (cleanup_connection env.faults env.now st).1 with
           restart_pending := true }, RunResult.ret, [])
      else
        match hbPhase env st with
        | Sum.inr out => out
        | Sum.inl st1 => recvPhase env st1

theorem handlerLoop_eq_map (hs : List (Nat × Bool)) (chan : Option Nat)
    (pkt : Nat) :
    handlerLoop hs chan pkt = hs.map (fun h => (h.1, chan, pkt)) := by
  induction hs with
  | nil => rfl
  | cons h rest ih =>
    unfold handlerLoop
    cases hcall : callHandler h chan pkt with
    | ok _ => rw [List.map_cons, ih]
    | error _ => rw [List.map_cons, ih]

theorem finalCheck_restart (st : PPPPServiceState)
    (inv : List (Nat × Option Nat × Nat)) :
    (finalCheck st inv).2.1 = RunResult.restartSignal →
      (finalCheck st inv).1.restart_pending = false := by
  unfold finalCheck
  split
  · intro _
    rfl
  · intro hc
    exact absurd hc (by simp)

theorem recvPhase_restart (env : RunEnv) (st : PPPPServiceState) :
    (recvPhase env st).2.1 = RunResult.restartSignal →
      (recvPhase env st).1.restart_pending = false := by
  cases hr : env.recv with
  | timeout =>
    simp only [recvPhase, hr]
    exact finalCheck_restart st []
  | noPacket =>
    simp only [recvPhase, hr]
    exact finalCheck_restart st []
  | packet chan pkt =>
    simp only [recvPhase, hr]
    exact finalCheck_restart st _
  | connReset =>
    simp only [recvPhase, hr]
    intro hc
    exact absurd hc (by simp)
  | otherError =>
    simp only [recvPhase, hr]
    split
    · intro hc
      exact absurd hc (by simp)
    · exact finalCheck_restart _ []

theorem hbPhase_inr_ret (env : RunEnv) (st : PPPPServiceState)
    (out : PPPPServiceState × RunResult × List (Nat × Option Nat × Nat)) :
    hbPhase env st = Sum.inr out → out.2.1 = RunResult.ret := by
  by_cases hdue : (HEARTBEAT_INTERVAL : ℚ) ≤ env.now - st.last_heartbeat
  · cases hhb : env.hb with
    | ok =>
      simp [hbPhase, if_pos hdue, hhb]
    | fail =>
      simp only [hbPhase, if_pos hdue, hhb]
      split
      · intro hc
        injection hc with h
        rw [← h]
      · intro hc
        exact absurd hc (by simp)
    | failSilent =>
      simp only [hbPhase, if_pos hdue, hhb]
      split
      · intro hc
        injection hc with h
        rw [← h]
      · intro hc
        exact absurd hc (by simp)
  · simp [hbPhase, if_neg hdue]

/-- Every fall-through of the heartbeat block (heartbeat not due, sent
successfully, or failed below the threshold) only touches the heartbeat
bookkeeping fields: handlers, session, `stopping` and `restart_pending`
survive into the recv block unchanged. -/
theorem hbPhase_inl_preserves (env : RunEnv) (st st1 : PPPPServiceState) :
    hbPhase env st = Sum.inl st1 →
      st1.handlers = st.handlers ∧ st1.api = st.api
      ∧ st1.stopping = st.stopping ∧ st1.restart_pending = st.restart_pending := by
  by_cases hdue : (HEARTBEAT_INTERVAL : ℚ) ≤ env.now - st.last_heartbeat
  · cases hhb : env.hb with
    | ok =>
      simp only [hbPhase, if_pos hdue, hhb]
      intro hc
      injection hc with h
      rw [← h]
      exact ⟨rfl, rfl, rfl, rfl⟩
    | fail =>
      simp only [hbPhase, if_pos hdue, hhb]
      split
      · intro hc
        exact absurd hc (by simp)
      · intro hc
        injection hc with h
        rw [← h]
        exact ⟨rfl, rfl, rfl, rfl⟩
    | failSilent =>
      simp only [hbPhase, if_pos hdue, hhb]
      split
      · intro hc
        exact absurd hc (by simp)
      · intro hc
        injection hc with h
        rw [← h]
        exact ⟨rfl, rfl, rfl, rfl⟩
  · simp only [hbPhase, if_neg hdue]
    intro hc
    injection hc with h
    rw [← h]
    exact ⟨rfl, rfl, rfl, rfl⟩

/-- C7: on every received packet, `worker_run` delivers the `(chan, msg)`
pair to every registered handler exactly once, in registration order,
independently of which handlers raise (`handlerLoop` records the call
whether or not `callHandler` errors); no handler error propagates
(`worker_run` only ever returns or raises `ServiceRestartSignal`), and the
service is not torn down: the handler list and session survive unchanged.
The `recv` call is reached — so a packet can be received — exactly when
the service is not stopping, the session is live, and the heartbeat block
falls through (`hbPhase _ _ = Sum.inl _`): heartbeat not due, sent
successfully, or failed below the threshold; these are precisely this
theorem's hypotheses. -/
theorem worker_run_delivers (env : RunEnv) (st : PPPPServiceState)
    (hstop : st.stopping = false) (hapi : st.api = some false)
    (st1 : PPPPServiceState) (hhb : hbPhase env st = Sum.inl st1)
    (chan : Option Nat) (pkt : Nat)
    (hrecv : env.recv = RecvOutcome.packet chan pkt) :
    (worker_run env st).2.2 = st.handlers.map (fun h => (h.1, chan, pkt))
    ∧ (worker_run env st).1.handlers = st.handlers
    ∧ (worker_run env st).1.api = st.api := by
  obtain ⟨hh, ha, hs, hr⟩ := hbPhase_inl_preserves env st st1 hhb
  cases hrp : st.restart_pending
  · simp [worker_run, hstop, hapi, hhb, recvPhase, hrecv, finalCheck,
      handlerLoop_eq_map, hh, ha, hs, hr, hrp]
  · simp [worker_run, hstop, hapi, hhb, recvPhase, hrecv, finalCheck,
      handlerLoop_eq_map, hh, ha, hs, hr, hrp]

/-- Witness for `worker_run_delivers`: a heartbeat-due iteration (20 s
since the last heartbeat, heartbeat sent successfully) with two handlers,
the second of which raises; both are invoked once with the packet. -/
theorem worker_run_delivers_witness :
    (worker_run ⟨20, HbOutcome.ok, RecvOutcome.packet (some 1) 42, ⟨false, false⟩⟩
        ⟨some false, [(1, false), (2, true)], none, 0, 0, false, false, 0⟩).2.2
      = [(1, some 1, 42), (2, some 1, 42)] :=
  ((worker_run_delivers
      ⟨20, HbOutcome.ok, RecvOutcome.packet (some 1) 42, ⟨false, false⟩⟩
      ⟨some false, [(1, false), (2, true)], none, 0, 0, false, false, 0⟩
      rfl rfl
      ⟨some false, [(1, false), (2, true)], none, 20, 0, false, false, 0⟩
      (by norm_num [hbPhase, HEARTBEAT_INTERVAL]) (some 1) 42 rfl).1).trans rfl

/-- C10: `worker_run` raises `ServiceRestartSignal` only from the final
check, which runs only when `stopping` is false, and it resets
`restart_pending` to `false` immediately before raising (each restart
request is consumed); when `stopping` is true, `worker_run` returns at
once with the state untouched and no handler invocation or connection
access. -/
theorem worker_run_restart_protocol (env : RunEnv) (st : PPPPServiceState) :
    ((worker_run env st).2.1 = RunResult.restartSignal →
      st.stopping = false ∧ (worker_run env st).1.restart_pending = false)
    ∧ (st.stopping = true → worker_run env st = (st, RunResult.ret, [])) := by
  cases hstop : st.stopping
  · constructor
    · intro hres
      refine ⟨rfl, ?_⟩
      rcases hapi : st.api with _ | stopped
      · by_cases hd : env.now - st.last_cleanup_time < RECONNECT_DELAY
        · simp [worker_run, hstop, hapi, hd] at hres
        · simp [worker_run, hstop, hapi, hd] at hres
      · cases stopped
        · rcases hhb : hbPhase env st with st1 | out
          · simp only [worker_run, hstop, hapi, hhb] at hres ⊢
            simp only [Bool.false_eq_true, if_neg, not_false_eq_true]
            simp only [Bool.false_eq_true, if_neg, not_false_eq_true] at hres
            exact recvPhase_restart env st1 hres
          · simp only [worker_run, hstop, hapi, hhb] at hres
            simp only [Bool.false_eq_true, if_neg, not_false_eq_true] at hres
            have := hbPhase_inr_ret env st out hhb
            rw [this] at hres
            exact absurd hres (by simp)
        · simp [worker_run, hstop, hapi] at hres
    · intro hc
      exact absurd hc (by simp [hstop])
  · constructor
    · intro hres
      simp [worker_run, hstop] at hres
    · intro _
      simp [worker_run, hstop]

/-- Witness for `worker_run_restart_protocol`: a run with a pending
restart raises and consumes the request; a stopping run is an untouched
immediate return. -/
theorem worker_run_restart_protocol_witness :
    (worker_run ⟨0, HbOutcome.ok, RecvOutcome.timeout, ⟨false, false⟩⟩
        ⟨some false, [], none, 0, 0, true, false, 0⟩).1.restart_pending = false
    ∧ worker_run ⟨0, HbOutcome.ok, RecvOutcome.timeout, ⟨false, false⟩⟩
        ⟨some false, [], none, 0, 0, false, true, 0⟩
      = (⟨some false, [], none, 0, 0, false, true, 0⟩, RunResult.ret, []) :=
  ⟨((worker_run_restart_protocol
      ⟨0, HbOutcome.ok, RecvOutcome.timeout, ⟨false, false⟩⟩
      ⟨some false, [], none, 0, 0, true, false, 0⟩).1
      (by norm_num [worker_run, hbPhase, recvPhase, finalCheck,
        HEARTBEAT_INTERVAL])).2,
   (worker_run_restart_protocol
      ⟨0, HbOutcome.ok, RecvOutcome.timeout, ⟨false, false⟩⟩
      ⟨some false, [], none, 0, 0, false, true, 0⟩).2 rfl⟩

/-! ### Video consumer (`VideoQueue` in src/web/service/video.py)

`_handler` (lines 131–187) receives the `(chan, msg)` pair delivered by the
P2P service; only channel-1 `Xzyh` packets are frames.  The message is
embedded as its channel plus a flag telling whether it is an `Xzyh`
instance.  Fields touched only by logging statements are kept when they
are genuinely assigned (`stream_uptime`); pure log output is erased.  When
the stall counter reaches 3 the handler raises `ServiceRestartSignal`
(returned as the Bool), aborting before the window counters are reset —
exactly as the Python `raise` does. -/

def FRAME_RATE_CHECK_INTERVAL : ℚ := 5
def MIN_ACCEPTABLE_FPS : ℚ := 3
def WARNING_FPS : ℚ := 5
def QUALITY_CHANGE_TIMEOUT : ℚ := 5

structure VideoState where
  frame_count : Nat
  total_frames : Nat
  first_frame_received : Bool
  last_frame_check : ℚ
  last_frame_time : ℚ
  stall_warning_count : Nat
  quality_change_time : Option ℚ
  stream_start_time : Option ℚ
  stream_uptime : ℚ
deriving DecidableEq, Repr

/-- Line 166: `self.quality_change_time and now - self.quality_change_time
< self.QUALITY_CHANGE_TIMEOUT`. -/
def inQualityChange (st : VideoState) (now : ℚ) : Bool :=
  match st.quality_change_time with
  | some t => decide (now - t < QUALITY_CHANGE_TIMEOUT)
  | none => false

/-- `VideoQueue._handler` (lines 131–187); returns the new state and
whether `ServiceRestartSignal` was raised. -/
def _handler (st : VideoState) (chan : Option Nat) (isXzyh : Bool)
    (now : ℚ) : VideoState × Bool :=
  if chan ≠ some 1 then (st, false)
  else if isXzyh = false then (st, false)
  else
    let st1 : VideoState :=
      { st with frame_count := st.frame_count + 1,
                total_frames := st.total_frames + 1 }
    let st2 : VideoState :=
      if st1.first_frame_received = false
      then { st1 with first_frame_received := true } else st1
    if FRAME_RATE_CHECK_INTERVAL ≤ now - st2.last_frame_check then
      let elapsed := now - st2.last_frame_check
      let frame_rate := (st2.frame_count : ℚ) / elapsed
      let st3 : VideoState :=
        match st2.stream_start_time with
        | some t => { st2 with stream_uptime := now - t }
        | none => st2
      if inQualityChange st3 now then
        ({ st3 with frame_count := 0, last_frame_check := now,
                    last_frame_time := now }, false)
      else if frame_rate < WARNING_FPS then
        if frame_rate < MIN_ACCEPTABLE_FPS then
          let st4 : VideoState :=
            { st3 with stall_warning_count := st3.stall_warning_count + 1 }
          if 3 ≤ st4.stall_warning_count then
            (st4, true)
          else
            ({ st4 with frame_count := 0, last_frame_check := now,
                        last_frame_time := now }, false)
        else
          ({ st3 with stall_warning_count := 0, frame_count := 0,
                      last_frame_check := now, last_frame_time := now }, false)
      else
        ({ st3 with stall_warning_count := 0, frame_count := 0,
                    last_frame_check := now, last_frame_time := now }, false)
    else
      ({ st2 with last_frame_time := now }, false)

/-- C5 counterexample: a frame-rate window of exactly 4 fps (20 frames in
5 s), outside any quality change, with `stall_warning_count = 2`: the
code resets the counter to 0 (the inner `else` on lines 177–178), while
the claim says a `3 ≤ fps < 5` window leaves the counter unchanged. -/
theorem video_fps_counterexample :
    (_handler ⟨19, 100, true, 0, 0, 2, none, none, 0⟩ (some 1) true 5).1.stall_warning_count = 0
    ∧ (0 : Nat) ≠ 2
    ∧ ((19 : ℚ) + 1) / 5 = 4 := by
  refine ⟨?_, by decide, by norm_num⟩
  norm_num [_handler, inQualityChange, FRAME_RATE_CHECK_INTERVAL,
    MIN_ACCEPTABLE_FPS, WARNING_FPS]

/-- C5 (amended): in a frame-rate window evaluated outside a quality
change, with `fps = (frame_count+1)/elapsed` (the arriving frame is
counted first): when `fps < 3` the stall counter is incremented and
`ServiceRestartSignal` is raised exactly when the incremented counter
reaches 3; when `fps ≥ 3` — including the `3 ≤ fps < 5` warning band —
the stall counter is reset to 0 and nothing is raised.  (The claim's
"reset exactly when fps ≥ 5" is wrong: the inner `else` on lines 177–178
also resets for `3 ≤ fps < 5`.) -/
theorem video_window_amended (st : VideoState) (now : ℚ)
    (hwin : FRAME_RATE_CHECK_INTERVAL ≤ now - st.last_frame_check)
    (hqc : inQualityChange st now = false) :
    (((st.frame_count : ℚ) + 1) / (now - st.last_frame_check) < MIN_ACCEPTABLE_FPS →
      (_handler st (some 1) true now).1.stall_warning_count
          = st.stall_warning_count + 1
      ∧ ((_handler st (some 1) true now).2 = true ↔
          3 ≤ st.stall_warning_count + 1))
    ∧ (MIN_ACCEPTABLE_FPS ≤ ((st.frame_count : ℚ) + 1) / (now - st.last_frame_check) →
      (_handler st (some 1) true now).1.stall_warning_count = 0
      ∧ (_handler st (some 1) true now).2 = false) := by
  constructor
  · intro hlow
    have hlow5 : ((st.frame_count : ℚ) + 1) / (now - st.last_frame_check)
        < WARNING_FPS := by
      have h35 : MIN_ACCEPTABLE_FPS < WARNING_FPS := by
        norm_num [MIN_ACCEPTABLE_FPS, WARNING_FPS]
      linarith
    rcases hqt : st.quality_change_time with _ | tq
    · by_cases hstall : 2 ≤ st.stall_warning_count <;>
        cases hff : st.first_frame_received <;>
          rcases hss : st.stream_start_time with _ | t0 <;>
            simp [_handler, inQualityChange, hwin, hqt, hff, hss, hlow,
              hlow5, hstall]
    · have hqc2 : ¬ (now - tq < QUALITY_CHANGE_TIMEOUT) := by
        simpa [inQualityChange, hqt] using hqc
      by_cases hstall : 2 ≤ st.stall_warning_count <;>
        cases hff : st.first_frame_received <;>
          rcases hss : st.stream_start_time with _ | t0 <;>
            simp [_handler, inQualityChange, hwin, hqt, hff, hss, hlow,
              hlow5, hstall, hqc2]
  · intro hhigh
    have hhigh' : ¬ (((st.frame_count : ℚ) + 1) / (now - st.last_frame_check)
        < MIN_ACCEPTABLE_FPS) := not_lt.mpr hhigh
    rcases hqt : st.quality_change_time with _ | tq
    · by_cases hw5 : ((st.frame_count : ℚ) + 1) / (now - st.last_frame_check)
          < WARNING_FPS <;>
        cases hff : st.first_frame_received <;>
          rcases hss : st.stream_start_time with _ | t0 <;>
            simp [_handler, inQualityChange, hwin, hqt, hff, hss, hhigh', hw5]
    · have hqc2 : ¬ (now - tq < QUALITY_CHANGE_TIMEOUT) := by
        simpa [inQualityChange, hqt] using hqc
      by_cases hw5 : ((st.frame_count : ℚ) + 1) / (now - st.last_frame_check)
          < WARNING_FPS <;>
        cases hff : st.first_frame_received <;>
          rcases hss : st.stream_start_time with _ | t0 <;>
            simp [_handler, inQualityChange, hwin, hqt, hff, hss, hhigh',
              hw5, hqc2]

/-- Witness for `video_window_amended`: a 2 fps window (10 frames in 5 s)
with the stall counter at 1: the handler increments it to 2 and does not
raise. -/
theorem video_window_amended_witness :
    (_handler ⟨9, 9, true, 0, 0, 1, none, none, 0⟩ (some 1) true 5).1.stall_warning_count
      = 1 + 1
    ∧ ((_handler ⟨9, 9, true, 0, 0, 1, none, none, 0⟩ (some 1) true 5).2 = true ↔
        3 ≤ 1 + 1) :=
  (video_window_amended ⟨9, 9, true, 0, 0, 1, none, none, 0⟩ 5
    (by norm_num [FRAME_RATE_CHECK_INTERVAL]) rfl).1
    (by norm_num [MIN_ACCEPTABLE_FPS])

/-! ### Video enable/disable (`VideoQueue.set_video_enabled`,
src/web/service/video.py lines 115–129)

The `Service` base class (web/lib/service.py) is not part of src/.
Modelled from the spec: the worker runstate is
`{Stopped, Starting, Running, Stopping}` (§3 "Worker state"); `start()`
activates a stopped service and `stop()` begins teardown of a running one.
The calls `self.start()` / `self.stop()` are additionally recorded as an
action list, so that "neither starts nor stops" is directly visible. -/

inductive RunState where
  | Stopped
  | Starting
  | Running
  | Stopping
deriving DecidableEq, Repr

inductive SvcAction where
  | start
  | stop
deriving DecidableEq, Repr

structure VideoSvcState where
  video_enabled : Bool
  runstate : RunState
deriving DecidableEq, Repr

/-- `VideoQueue.set_video_enabled(enabled)`: returns the new state, the
returned value (always `True`), and the service actions performed. -/
def set_video_enabled (st : VideoSvcState) (enabled : Bool) :
    VideoSvcState × Bool × List SvcAction :=
  if enabled = st.video_enabled then (st, true, [])
  else
    let st1 : VideoSvcState := { st with video_enabled := enabled }
    if enabled then
      if st1.runstate = RunState.Stopped then
        ({ st1 with runstate := RunState.Starting }, true, [SvcAction.start])
      else (st1, true, [])
    else
      if st1.runstate = RunState.Running then
        ({ st1 with runstate := RunState.Stopping }, true, [SvcAction.stop])
      else (st1, true, [])

/-- C8: `set_video_enabled` is idempotent: when `video_enabled` already
equals the argument it returns `True`, changes no state and performs no
service action; and for any starting state, calling it twice with the same
argument equals calling it once (the second call is such a no-op). -/
theorem set_video_enabled_idempotent (st : VideoSvcState) (b : Bool)
    (h : st.video_enabled = b) :
    set_video_enabled st b = (st, true, [])
    ∧ (∀ st0 : VideoSvcState,
        set_video_enabled (set_video_enabled st0 b).1 b
          = ((set_video_enabled st0 b).1, true, [])) := by
  constructor
  · rw [set_video_enabled, if_pos h.symm]
  · intro st0
    have henb : (set_video_enabled st0 b).1.video_enabled = b := by
      by_cases h0 : b = st0.video_enabled
      · rw [set_video_enabled, if_pos h0]
        exact h0.symm
      · rw [set_video_enabled, if_neg h0]
        cases b <;> rcases hrs : st0.runstate <;> simp
    rw [set_video_enabled, if_pos henb.symm]

/-- Witness for `set_video_enabled_idempotent`: enabling when already
enabled and running is a pure no-op returning `True`. -/
theorem set_video_enabled_idempotent_witness :
    set_video_enabled ⟨true, RunState.Running⟩ true
      = (⟨true, RunState.Running⟩, true, []) :=
  (set_video_enabled_idempotent ⟨true, RunState.Running⟩ true rfl).1

/-! ### File transfer service (`FileTransferService.send_file`,
src/web/service/filetransfer.py lines 31–73)

The service-pool calls `app.svc.get("pppp")` / `app.svc.put("pppp")` live
outside src/; here they are recorded as counters.  The environment fixes
the outcome of each external interaction: whether `app.svc.get` returns
`None` (then `self.pppp._api` raises `AttributeError`, converted to
`ConnectionError` by the first `except`), whether `pppp._api` is `None`,
whether the wait-for-`Connected` loop ends in connection or in the API
stopping (raising `ConnectionError`), and whether `fd.read()` and the
inner `test_send_file` succeed.  The result records success, the number of
`get` and `put` calls, and whether `cached_file`/`cached_filename` are
cleared (`None`) on exit. -/

structure FTEnv where
  getNone : Bool
  apiPresent : Bool
  apiConnects : Bool
  readOk : Bool
  transferOk : Bool
deriving DecidableEq, Repr

structure FTOutcome where
  ok : Bool
  gets : Nat
  puts : Nat
  cachedCleared : Bool
deriving DecidableEq, Repr

/-- `FileTransferService.send_file`.  The first `try` block (lines 33–48)
has no `finally`: its three `ConnectionError` exits happen after a
successful `app.svc.get` but before any `put`.  Only the second `try`
block (lines 50–73) carries the `finally` that clears the cache and calls
`app.svc.put("pppp")`. -/
def ft_send_file (env : FTEnv) : FTOutcome :=
  if env.getNone then
    { ok := false, gets := 1, puts := 0, cachedCleared := true }
  else if env.apiPresent = false then
    { ok := false, gets := 1, puts := 0, cachedCleared := true }
  else if env.apiConnects = false then
    { ok := false, gets := 1, puts := 0, cachedCleared := true }
  else if env.readOk = false then
    { ok := false, gets := 1, puts := 1, cachedCleared := true }
  else
    { ok := env.transferOk, gets := 1, puts := 1, cachedCleared := true }

/-- C6: the code violates the claim on the early exit paths.  With the
pool `get` succeeding but `pppp._api = None`, `send_file` raises
`ConnectionError` from the first `try` block, which has no cleanup: the
borrowed service is never returned (`puts = 0` after `gets = 1`).  The
cache fields are untouched (still `None`) on this path, but the
get/put pairing the claim requires does not hold. -/
theorem ft_send_file_bug :
    ft_send_file ⟨false, false, true, true, true⟩
      = { ok := false, gets := 1, puts := 0, cachedCleared := true }
    ∧ (ft_send_file ⟨false, false, true, true, true⟩).puts
        < (ft_send_file ⟨false, false, true, true, true⟩).gets := by
  exact ⟨rfl, by decide⟩

/-- The paths that reach the caching `try` block do clear the cache and
return the service: one `put` per `get`, on success and on error alike. -/
theorem ft_send_file_late_paths (env : FTEnv)
    (hget : env.getNone = false) (hapi : env.apiPresent = true)
    (hconn : env.apiConnects = true) :
    (ft_send_file env).puts = 1 ∧ (ft_send_file env).gets = 1
    ∧ (ft_send_file env).cachedCleared = true := by
  cases hread : env.readOk <;>
    simp [ft_send_file, hget, hapi, hconn, hread]

/-- Witness for `ft_send_file_late_paths` at a failing transfer. -/
theorem ft_send_file_late_paths_witness :
    (ft_send_file ⟨false, true, true, true, false⟩).puts = 1
    ∧ (ft_send_file ⟨false, true, true, true, false⟩).gets = 1
    ∧ (ft_send_file ⟨false, true, true, true, false⟩).cachedCleared = true :=
  ft_send_file_late_paths ⟨false, true, true, true, false⟩ rfl rfl rfl
